import Mathlib

/-!
Shallow embedding of the games catalog service
(`server/models/base.py`, `server/models/game.py`, `server/models/publisher.py`,
`server/models/category.py`, `server/routes/games.py`).

JSON payload values are modelled by `JValue`; a request body is an association
list of keys to values (Python `dict` preserving insertion order, keys unique
in practice but the embedding does not depend on that: lookup takes the first
occurrence, as `dict` lookup does for unique keys).

SQLAlchemy session semantics: route handlers mutate in-memory entity objects;
those mutations reach the durable store only at `db.session.commit()`.  Every
failure path either returns before `commit` or calls `db.session.rollback()`,
and the request-scoped session is rolled back at teardown, so the embedding
threads the store explicitly and failure paths return the input store.
`commit` enforces the `nullable=False` column constraints of the `games`
table (title, description), surfacing `IntegrityError` as the constraint
violation message the handlers produce.
-/

namespace Catalog

/-- JSON scalar values appearing in request payloads and entity fields. -/
inductive JValue where
  | jnull : JValue
  | jstr (s : String) : JValue
  | jint (n : Int) : JValue
  | jfloat (q : ℚ) : JValue
  | jbool (b : Bool) : JValue
deriving DecidableEq, Repr

/-- A parsed JSON object body: keys with values, in payload order. -/
def Payload := List (String × JValue)

instance : DecidableEq Payload := by
  unfold Payload
  infer_instance

/-- Python `field in data`. -/
def Payload.hasKey (d : Payload) (k : String) : Bool :=
  d.any (fun p => p.1 = k)

/-- Python `data[field]` / `data.get(field)`: value of the first occurrence. -/
def Payload.lookup (d : Payload) (k : String) : Option JValue :=
  (d.find? (fun p => p.1 = k)).map Prod.snd

/-- Python `data.get(field)` with `None` default. -/
def Payload.getD (d : Payload) (k : String) : JValue :=
  (d.lookup k).getD .jnull

/-- Models Python `str.strip()`: drops leading and trailing whitespace
characters.  (Extensionally `String.trim`, but stated over the character
list so that concrete instances evaluate.) -/
def strip (s : String) : String :=
  ⟨((s.data.dropWhile Char.isWhitespace).reverse.dropWhile Char.isWhitespace).reverse⟩

/-- Embeds `BaseModel.validate_string_length(field_name, value, min_length, allow_none)`
from `server/models/base.py`: `None` is accepted (returned unchanged) only when
`allow_none`, non-strings are rejected, strings are rejected when their
stripped form is shorter than `min_length`, and accepted strings are returned
unchanged (untrimmed). -/
def validate_string_length (field_name : String) (value : JValue)
    (min_length : Nat) (allow_none : Bool) : Except String JValue :=
  match value with
  | .jnull =>
      if allow_none then .ok .jnull
      else .error (field_name ++ " cannot be empty")
  | .jstr s =>
      if (strip s).length < min_length then
        .error (field_name ++ " must be at least " ++ toString min_length ++ " characters")
      else .ok (.jstr s)
  | _ => .error (field_name ++ " must be a string")

/-- A stored `games` row (`server/models/game.py`).  Attribute values are kept
as the raw values the validators returned, as SQLAlchemy attributes hold them. -/
structure Game where
  id : Int
  title : JValue
  description : JValue
  star_rating : JValue
  category_id : JValue
  publisher_id : JValue
deriving DecidableEq, Repr

/-- A stored `publishers` row (`server/models/publisher.py`). -/
structure Publisher where
  id : Int
  name : String
  description : Option String
deriving DecidableEq, Repr

/-- A stored `categories` row (`server/models/category.py`). -/
structure Category where
  id : Int
  name : String
  description : Option String
deriving DecidableEq, Repr

/-- Embeds `Game.validate_name` (the `@validates('title')` hook): titles go
through `validate_string_length('Game title', name, min_length=2)`. -/
def Game.validate_name (name : JValue) : Except String JValue :=
  validate_string_length "Game title" name 2 false

/-- Embeds `Game.validate_description` (the `@validates('description')` hook):
non-null values go through
`validate_string_length('Description', description, min_length=10, allow_none=True)`;
a null value bypasses the check and is returned as-is. -/
def Game.validate_description (description : JValue) : Except String JValue :=
  if description ≠ .jnull then
    validate_string_length "Description" description 10 true
  else
    .ok description

/-- The durable relational store (the three tables). -/
structure Store where
  games : List Game
  publishers : List Publisher
  categories : List Category
deriving DecidableEq, Repr

/-- Embeds `db.session.get(Game, id)`: primary-key lookup. -/
def Store.getGame (s : Store) (id : Int) : Option Game :=
  s.games.find? (fun g => g.id = id)

/-- Embeds `db.session.get(Publisher, data['publisher_id'])`: a row is found
only when the supplied value is an integer equal to an existing primary key. -/
def Store.getPublisher (s : Store) (v : JValue) : Option Publisher :=
  match v with
  | .jint n => s.publishers.find? (fun p => p.id = n)
  | _ => none

/-- Embeds `db.session.get(Category, data['category_id'])`. -/
def Store.getCategory (s : Store) (v : JValue) : Option Category :=
  match v with
  | .jint n => s.categories.find? (fun c => c.id = n)
  | _ => none

/-- Joined publisher/category summary in the read view (`{'id': ..., 'name': ...}`). -/
structure RelRef where
  id : Int
  name : String
deriving DecidableEq, Repr

/-- The JSON-facing view `Game.to_dict` builds: note the camel-case
`starRating` wire name. -/
structure GameView where
  id : Int
  title : JValue
  description : JValue
  publisher : Option RelRef
  category : Option RelRef
  starRating : JValue
deriving DecidableEq, Repr

/-- Embeds `Game.to_dict` from `server/models/game.py`: the `publisher` /
`category` relationships join on the game's foreign keys and render `null`
when the relation is absent. -/
def Game.to_dict (s : Store) (g : Game) : GameView :=
  { id := g.id
    title := g.title
    description := g.description
    publisher := (s.getPublisher g.publisher_id).map (fun p => ⟨p.id, p.name⟩)
    category := (s.getCategory g.category_id).map (fun c => ⟨c.id, c.name⟩)
    starRating := g.star_rating }

/-- Outcome of a handler, paired with the HTTP status it is served with:
`view` for a composed game view (`jsonify(game.to_dict())`), `message` for
the delete acknowledgment, `failure` for every `{"error": ...}` body. -/
inductive HandlerResult where
  | view (status : Nat) (v : GameView) : HandlerResult
  | message (status : Nat) (m : String) : HandlerResult
  | failure (status : Nat) (error : String) : HandlerResult
deriving DecidableEq, Repr

/-- A failure outcome (any `{"error": ...}` response, status 4xx or 500). -/
def HandlerResult.isFailure : HandlerResult → Bool
  | .failure _ _ => true
  | _ => false

/-- An incoming request body for Create/Update:
`is_json` is Flask's `request.is_json`; `get_json` is `none` when
`request.get_json()` raises (unparsable body), otherwise the parsed object. -/
structure HttpRequest where
  is_json : Bool
  get_json : Option Payload

/-- The fixed `required_fields` list of `create_game`. -/
def required_fields : List String :=
  ["title", "description", "category_id", "publisher_id"]

/-- The `missing_fields` comprehension of `create_game`: fields of
`required_fields`, in that list's order, that are absent from the payload or
bound to null. -/
def missing_fields (data : Payload) : List String :=
  required_fields.filter
    (fun field => data.lookup field = none ∨ data.lookup field = some .jnull)

/-- Fresh primary key the store assigns to an inserted game on commit. -/
def Store.nextGameId (s : Store) : Int :=
  (s.games.foldr (fun g m => max g.id m) 0) + 1

/-- Commit-time check of the `nullable=False` columns of the `games` table
(`title`, `description`): a null value raises `IntegrityError`, which the
handlers translate to the constraint-violation message. -/
def commitOk (g : Game) : Bool :=
  g.title ≠ .jnull ∧ g.description ≠ .jnull

/-- Embeds `create_game` (`POST /api/games`, lines 70-125 of
`server/routes/games.py`).  Returns the response together with the store
after the request (unchanged on every failure path: failures return before
`commit` or roll the transaction back). -/
def create_game (s : Store) (req : HttpRequest) : HandlerResult × Store :=
  if ¬ req.is_json then
    (.failure 400 "Content-Type must be application/json", s)
  else
    match req.get_json with
    | none => (.failure 400 "Invalid JSON format", s)
    | some data =>
      if data.isEmpty then
        (.failure 400 "Request body cannot be empty", s)
      else
        let missing := missing_fields data
        if missing ≠ [] then
          (.failure 400 ("Missing required fields: " ++ String.intercalate ", " missing), s)
        else
          match s.getPublisher (data.getD "publisher_id") with
          | none => (.failure 404 "Publisher not found", s)
          | some _ =>
            match s.getCategory (data.getD "category_id") with
            | none => (.failure 404 "Category not found", s)
            | some _ =>
              match Game.validate_name (data.getD "title") with
              | .error e => (.failure 400 e, s)
              | .ok t =>
                match Game.validate_description (data.getD "description") with
                | .error e => (.failure 400 e, s)
                | .ok d =>
                  let game : Game :=
                    { id := s.nextGameId
                      title := t
                      description := d
                      star_rating := data.getD "star_rating"
                      category_id := data.getD "category_id"
                      publisher_id := data.getD "publisher_id" }
                  if commitOk game then
                    let s' : Store := { s with games := s.games ++ [game] }
                    match s'.games.find? (fun g => g.id = game.id) with
                    | none => (.failure 500 "Internal server error", s)
                    | some created => (.view 201 (created.to_dict s'), s')
                  else
                    (.failure 400 "Database constraint violation", s)

/-- The `if 'publisher_id' in data:` block of `update_game` (lines 148-152):
resolves the reference, 404 on failure, otherwise assigns the foreign key on
the in-memory session object. -/
def applyPublisherField (s : Store) (data : Payload) (g : Game) :
    Except (Nat × String) Game :=
  match data.lookup "publisher_id" with
  | none => .ok g
  | some v =>
    match s.getPublisher v with
    | none => .error (404, "Publisher not found")
    | some _ => .ok { g with publisher_id := v }

/-- The `if 'category_id' in data:` block of `update_game` (lines 154-158). -/
def applyCategoryField (s : Store) (data : Payload) (g : Game) :
    Except (Nat × String) Game :=
  match data.lookup "category_id" with
  | none => .ok g
  | some v =>
    match s.getCategory v with
    | none => .error (404, "Category not found")
    | some _ => .ok { g with category_id := v }

/-- The `if 'title' in data:` assignment (line 161-162); the `@validates`
hook runs on assignment and its `ValueError` becomes a 400. -/
def applyTitleField (data : Payload) (g : Game) : Except (Nat × String) Game :=
  match data.lookup "title" with
  | none => .ok g
  | some v =>
    match Game.validate_name v with
    | .error e => .error (400, e)
    | .ok v' => .ok { g with title := v' }

/-- The `if 'description' in data:` assignment (lines 163-164). -/
def applyDescriptionField (data : Payload) (g : Game) :
    Except (Nat × String) Game :=
  match data.lookup "description" with
  | none => .ok g
  | some v =>
    match Game.validate_description v with
    | .error e => .error (400, e)
    | .ok v' => .ok { g with description := v' }

/-- The `if 'star_rating' in data:` assignment (lines 165-166); no validator
is attached to `star_rating`. -/
def applyStarRatingField (data : Payload) (g : Game) : Game :=
  match data.lookup "star_rating" with
  | none => g
  | some v => { g with star_rating := v }

/-- Field-update phase of `update_game` (lines 147-166): resolves and assigns
`publisher_id` then `category_id` when present, then assigns `title`,
`description`, `star_rating` when present, running the attribute validators.
Operates on the in-memory session object; a failure aborts before commit. -/
def updateFields (s : Store) (data : Payload) (game0 : Game) :
    Except (Nat × String) Game :=
  match applyPublisherField s data game0 with
  | .error e => .error e
  | .ok game1 =>
    match applyCategoryField s data game1 with
    | .error e => .error e
    | .ok game2 =>
      match applyTitleField data game2 with
      | .error e => .error e
      | .ok game3 =>
        match applyDescriptionField data game3 with
        | .error e => .error e
        | .ok game4 => .ok (applyStarRatingField data game4)

/-- Embeds `update_game` (`PUT /api/games/<id>`, lines 127-183).  Existence is
checked before the content-type/body checks; the store is mutated only by the
commit at the end of a fully successful pass, so every failure path returns
the input store. -/
def update_game (s : Store) (id : Int) (req : HttpRequest) :
    HandlerResult × Store :=
  match s.getGame id with
  | none => (.failure 404 "Game not found", s)
  | some game =>
    if ¬ req.is_json then
      (.failure 400 "Content-Type must be application/json", s)
    else
      match req.get_json with
      | none => (.failure 400 "Invalid JSON format", s)
      | some data =>
        if data.isEmpty then
          (.failure 400 "Request body cannot be empty", s)
        else
          match updateFields s data game with
          | .error (code, e) => (.failure code e, s)
          | .ok game' =>
            if commitOk game' then
              let s' : Store :=
                { s with games := s.games.map (fun g => if g.id = id then game' else g) }
              match s'.games.find? (fun g => g.id = id) with
              | none => (.failure 500 "Internal server error", s)
              | some updated => (.view 200 (updated.to_dict s'), s')
            else
              (.failure 400 "Database constraint violation", s)

/-- Embeds `delete_game` (`DELETE /api/games/<id>`, lines 185-202). -/
def delete_game (s : Store) (id : Int) : HandlerResult × Store :=
  match s.getGame id with
  | none => (.failure 404 "Game not found", s)
  | some _ =>
    (.message 200 "Game deleted successfully",
     { s with games := s.games.filter (fun g => g.id ≠ id) })

/-- Embeds `get_game` (`GET /api/games/<id>`, lines 56-68): the base query
filtered to the id, 404 when absent, otherwise the composed view. -/
def get_game (s : Store) (id : Int) : HandlerResult :=
  match s.games.find? (fun g => g.id = id) with
  | none => .failure 404 "Game not found"
  | some g => .view 200 (g.to_dict s)

/-- The paginated envelope `get_games` returns. -/
structure PageResponse where
  data : List GameView
  page : Int
  per_page : Int
  total : Nat
  total_pages : Nat
deriving DecidableEq, Repr

/-- Embeds `get_games` (`GET /api/games`, lines 20-54).  The query parameters
arrive as `Option Int` (`request.args.get(..., default, type=int)` yields the
default on an absent or non-integer parameter); the handler then clamps
`page` to ≥ 1 and `per_page` to [1,100], substituting the defaults 1 and 20.
The outer-joined base query returns one row per game, so `total` is the
number of games; offset/limit, ceiling-division `total_pages`. -/
def get_games (s : Store) (page_arg per_page_arg : Option Int) : PageResponse :=
  let page0 := page_arg.getD 1
  let per_page0 := per_page_arg.getD 20
  let page := if page0 < 1 then 1 else page0
  let per_page := if per_page0 < 1 ∨ per_page0 > 100 then 20 else per_page0
  let total := s.games.length
  let games_query := (s.games.drop ((page - 1) * per_page).toNat).take per_page.toNat
  let total_pages := (total + per_page.toNat - 1) / per_page.toNat
  { data := games_query.map (fun g => g.to_dict s)
    page := page
    per_page := per_page
    total := total
    total_pages := total_pages }

/-! ### Helper lemmas -/

/-- A value accepted by `validate_string_length` is returned unchanged. -/
theorem validate_string_length_ok {fn : String} {v v' : JValue} {ml : Nat} {an : Bool}
    (h : validate_string_length fn v ml an = .ok v') : v' = v := by
  unfold validate_string_length at h
  split at h <;> first
    | (split at h <;> simp_all)
    | simp_all

/-- A title accepted by the title validator is returned unchanged. -/
theorem Game.validate_name_ok {v v' : JValue}
    (h : Game.validate_name v = .ok v') : v' = v :=
  validate_string_length_ok h

/-- A description accepted by the description validator is returned unchanged. -/
theorem Game.validate_description_ok {v v' : JValue}
    (h : Game.validate_description v = .ok v') : v' = v := by
  unfold Game.validate_description at h
  split at h
  · exact validate_string_length_ok h
  · simp_all

/-! ### Claim theorems -/

/-- C5.  `validate_string_length` returns null exactly when the input is null
and `allow_none` holds, rejects null otherwise with "cannot be empty",
rejects non-strings with "must be a string", rejects strings whose trimmed
form is shorter than `min_length` with "must be at least ... characters",
and returns the accepted value unchanged (untrimmed). -/
theorem validate_string_length_spec (field_name : String) (value : JValue)
    (min_length : Nat) (allow_none : Bool) :
    (value = .jnull → allow_none = true →
      validate_string_length field_name value min_length allow_none = .ok .jnull) ∧
    (value = .jnull → allow_none = false →
      validate_string_length field_name value min_length allow_none =
        .error (field_name ++ " cannot be empty")) ∧
    (value ≠ .jnull → (∀ s, value ≠ .jstr s) →
      validate_string_length field_name value min_length allow_none =
        .error (field_name ++ " must be a string")) ∧
    (∀ s, value = .jstr s → (strip s).length < min_length →
      validate_string_length field_name value min_length allow_none =
        .error (field_name ++ " must be at least " ++ toString min_length ++ " characters")) ∧
    (∀ s, value = .jstr s → ¬ (strip s).length < min_length →
      validate_string_length field_name value min_length allow_none = .ok value) := by
  refine ⟨?_, ?_, ?_, ?_, ?_⟩ <;> intro h
  · intro ha; subst h; simp [validate_string_length, ha]
  · intro ha; subst h; simp [validate_string_length, ha]
  · intro hs
    cases value with
    | jnull => exact absurd rfl h
    | jstr s => exact absurd rfl (hs s)
    | jint n => rfl
    | jfloat q => rfl
    | jbool b => rfl
  · intro hv hlen; subst hv; simp [validate_string_length, hlen]
  · intro hv hlen; subst hv; simp [validate_string_length, hlen]

/-- C5 witness: a concrete run of each clause of the contract. -/
theorem validate_string_length_spec_witness :
    validate_string_length "Description" (.jstr "hi there") 10 true =
      .error "Description must be at least 10 characters" :=
  ((validate_string_length_spec "Description" (.jstr "hi there") 10 true).2.2.2.1
    "hi there" rfl (by decide))

/-- Missing required fields of a payload listed in payload order: the order
in which their keys occur in the payload (meaningful when every missing field
occurs in the payload, bound to null, as in the counterexample below). -/
def payloadOrderMissing (data : Payload) : List String :=
  (data.map Prod.fst).filter
    (fun f => decide (f ∈ required_fields ∧ data.lookup f = some .jnull))

/-- Store with one publisher and one category used by concrete scenarios. -/
def seedStore : Store :=
  { games := []
    publishers := [{ id := 1, name := "DevGames Inc", description := none }]
    categories := [{ id := 1, name := "Strategy", description := none }] }

/-- Payload whose missing required fields (`title`, `publisher_id`) all occur
in the payload, bound to null, with `publisher_id` occurring before `title`. -/
def c3_payload : Payload :=
  [("publisher_id", .jnull), ("category_id", .jint 1),
   ("title", .jnull), ("description", .jstr "a long enough description here")]

/-- C3 counterexample: for this payload the missing fields in payload order
are `publisher_id, title`, but the produced message lists them as
`title, publisher_id` — the fixed order of the handler's `required_fields`
list, not the payload order. -/
theorem create_game_missing_order_counterexample :
    payloadOrderMissing c3_payload = ["publisher_id", "title"] ∧
    (create_game seedStore ⟨true, some c3_payload⟩).1 =
      .failure 400 "Missing required fields: title, publisher_id" ∧
    (create_game seedStore ⟨true, some c3_payload⟩).1 ≠
      .failure 400 ("Missing required fields: " ++
        String.intercalate ", " (payloadOrderMissing c3_payload)) := by
  refine ⟨by decide, by decide, by decide⟩

/-- C3 amended: a Create payload missing any of the four required fields
(absent or null) fails with status 400 and a message naming all missing
fields, listed in the fixed required-field order
`title, description, category_id, publisher_id`; the store is unchanged. -/
theorem create_game_missing_fields_spec (s : Store) (req : HttpRequest) (data : Payload)
    (hjson : req.is_json = true) (hbody : req.get_json = some data)
    (hne : data.isEmpty = false) (hmiss : missing_fields data ≠ []) :
    create_game s req =
      (.failure 400 ("Missing required fields: " ++
        String.intercalate ", " (missing_fields data)), s) ∧
    missing_fields data =
      required_fields.filter
        (fun field => data.lookup field = none ∨ data.lookup field = some .jnull) := by
  refine ⟨?_, rfl⟩
  simp [create_game, hjson, hbody, hne, hmiss]

/-- C3 amended witness: the concrete payload above produces the message in
required-field order. -/
theorem create_game_missing_fields_spec_witness :
    create_game seedStore ⟨true, some c3_payload⟩ =
      (.failure 400 ("Missing required fields: " ++
        String.intercalate ", " (missing_fields c3_payload)), seedStore) ∧
    missing_fields c3_payload = ["title", "publisher_id"] :=
  ⟨(create_game_missing_fields_spec seedStore ⟨true, some c3_payload⟩ c3_payload
      rfl rfl (by decide) (by decide)).1, by decide⟩

/-- C8.  List clamps its parameters before use: a missing or non-integer
parameter falls back to the default (1, 20), a `page` below 1 is replaced by
1, a `per_page` outside [1,100] is replaced by 20, and the clamped values
always satisfy `1 ≤ page` and `1 ≤ per_page ≤ 100`; List is a total function
of the store and the raw parameters, so no combination fails. -/
theorem get_games_clamps_params (s : Store) (page_arg per_page_arg : Option Int) :
    (get_games s page_arg per_page_arg).page =
      (if page_arg.getD 1 < 1 then 1 else page_arg.getD 1) ∧
    (get_games s page_arg per_page_arg).per_page =
      (if per_page_arg.getD 20 < 1 ∨ per_page_arg.getD 20 > 100 then 20
       else per_page_arg.getD 20) ∧
    1 ≤ (get_games s page_arg per_page_arg).page ∧
    1 ≤ (get_games s page_arg per_page_arg).per_page ∧
    (get_games s page_arg per_page_arg).per_page ≤ 100 := by
  refine ⟨rfl, rfl, ?_, ?_, ?_⟩ <;>
    · simp only [get_games]
      split <;> omega

/-- A seeded game row used by concrete scenarios. -/
def seedGame : Game :=
  { id := 1
    title := .jstr "Pipeline Panic"
    description := .jstr "Build your DevOps pipeline before chaos ensues"
    star_rating := .jnull
    category_id := .jint 1
    publisher_id := .jint 1 }

/-- Store with one game, one publisher, one category. -/
def gameStore : Store :=
  { games := [seedGame]
    publishers := [{ id := 1, name := "DevGames Inc", description := none }]
    categories := [{ id := 1, name := "Strategy", description := none }] }

/-- C2.  On a Create payload that passes the required-field gate (all four
required fields supplied non-null, which the handler checks first), both
references are resolved before any entity is constructed or row written, and
the publisher is checked before the category: an unresolvable `publisher_id`
yields 404 "Publisher not found" whatever the category (in particular when
both are invalid), and an unresolvable `category_id` after a valid publisher
yields 404 "Category not found"; both leave the store unchanged. -/
theorem create_game_resolver_order (s : Store) (req : HttpRequest) (data : Payload)
    (hjson : req.is_json = true) (hbody : req.get_json = some data)
    (hne : data.isEmpty = false) (hmiss : missing_fields data = []) :
    (s.getPublisher (data.getD "publisher_id") = none →
      create_game s req = (.failure 404 "Publisher not found", s)) ∧
    (∀ p, s.getPublisher (data.getD "publisher_id") = some p →
      s.getCategory (data.getD "category_id") = none →
      create_game s req = (.failure 404 "Category not found", s)) := by
  constructor
  · intro hp
    simp [create_game, hjson, hbody, hne, hmiss, hp]
  · intro p hp hc
    simp [create_game, hjson, hbody, hne, hmiss, hp, hc]

/-- C2 witness: with both references invalid the error is the publisher one. -/
theorem create_game_resolver_order_witness :
    create_game gameStore
      ⟨true, some [("title", .jstr "New Game"),
                   ("description", .jstr "a long enough description"),
                   ("category_id", .jint 999), ("publisher_id", .jint 999)]⟩ =
      (.failure 404 "Publisher not found", gameStore) :=
  (create_game_resolver_order gameStore _ _ rfl rfl (by decide) (by decide)).1
    (by decide)

/-- C10.  Update checks the game's existence before inspecting the request:
an absent id yields 404 "Game not found" for every request shape (wrong
content type, unparsable body, empty body alike); conversely a
malformed-request 400 is only produced when the game exists. -/
theorem update_game_checks_existence_first (s : Store) (id : Int) (req : HttpRequest) :
    (s.getGame id = none →
      update_game s id req = (.failure 404 "Game not found", s)) ∧
    (∀ m, (m = "Content-Type must be application/json" ∨
           m = "Invalid JSON format" ∨ m = "Request body cannot be empty") →
      (update_game s id req).1 = .failure 400 m →
      ∃ g, s.getGame id = some g) := by
  constructor
  · intro h
    simp [update_game, h]
  · intro m _ h
    cases hg : s.getGame id with
    | none => simp [update_game, hg] at h
    | some g => exact ⟨g, rfl⟩

/-- C10 witness: a request with the wrong content type and no parsable body
still gets 404 on an absent id, and a malformed-request 400 on the seeded
store implies the game exists. -/
theorem update_game_checks_existence_first_witness :
    update_game gameStore 2 ⟨false, none⟩ =
      (.failure 404 "Game not found", gameStore) ∧
    ∃ g, gameStore.getGame 1 = some g :=
  ⟨(update_game_checks_existence_first gameStore 2 ⟨false, none⟩).1 (by decide),
   (update_game_checks_existence_first gameStore 1 ⟨false, none⟩).2
     "Content-Type must be application/json" (Or.inl rfl) (by decide)⟩

/-- C9.  Delete on an absent id fails with 404 "Game not found"; a successful
Delete acknowledges with "Game deleted successfully" and removes exactly the
target row: a subsequent Get on the id returns 404 "Game not found", the
remaining rows are exactly the prior rows with a different id, and no List
page ever shows a view with the deleted id. -/
theorem delete_game_spec (s : Store) (id : Int) :
    (s.getGame id = none →
      delete_game s id = (.failure 404 "Game not found", s)) ∧
    (∀ g, s.getGame id = some g →
      (delete_game s id).1 = .message 200 "Game deleted successfully" ∧
      get_game (delete_game s id).2 id = .failure 404 "Game not found" ∧
      (∀ x, x ∈ (delete_game s id).2.games ↔ x ∈ s.games ∧ x.id ≠ id) ∧
      (∀ page_arg per_page_arg v,
        v ∈ (get_games (delete_game s id).2 page_arg per_page_arg).data →
        v.id ≠ id)) := by
  constructor
  · intro h
    simp [delete_game, h]
  · intro g hg
    have h2 : (delete_game s id).2 =
        { s with games := s.games.filter (fun x => x.id ≠ id) } := by
      simp [delete_game, hg]
    refine ⟨by simp [delete_game, hg], ?_, ?_, ?_⟩
    · rw [h2]
      simp only [get_game]
      rw [List.find?_eq_none.mpr]
      · intro x hx
        have := (List.mem_filter.mp hx).2
        simpa using this
    · intro x
      rw [h2]
      simp [List.mem_filter]
    · intro page_arg per_page_arg v hv
      rw [h2] at hv
      simp only [get_games, List.mem_map] at hv
      obtain ⟨x, hx, rfl⟩ := hv
      have hx' : x ∈ s.games.filter (fun x => x.id ≠ id) :=
        List.drop_subset _ _ (List.take_subset _ _ hx)
      have := (List.mem_filter.mp hx').2
      simpa [Game.to_dict] using this

/-- C9 witness: deleting the seeded game makes Get return 404 and empties the
listing of its id. -/
theorem delete_game_spec_witness :
    (delete_game gameStore 1).1 = .message 200 "Game deleted successfully" ∧
    get_game (delete_game gameStore 1).2 1 = .failure 404 "Game not found" :=
  ⟨((delete_game_spec gameStore 1).2 seedGame (by decide)).1,
   ((delete_game_spec gameStore 1).2 seedGame (by decide)).2.1⟩

/-- Case analysis of `create_game`: either the request succeeded (a 201 view)
or the returned store is the input store. -/
theorem create_game_failure_frame (s : Store) (req : HttpRequest) :
    (create_game s req).1.isFailure = false ∨ (create_game s req).2 = s := by
  simp only [create_game]
  repeat' split
  all_goals simp [HandlerResult.isFailure]

/-- Case analysis of `update_game`: either the request succeeded (a 200 view)
or the returned store is the input store. -/
theorem update_game_failure_frame (s : Store) (id : Int) (req : HttpRequest) :
    (update_game s id req).1.isFailure = false ∨ (update_game s id req).2 = s := by
  simp only [update_game]
  repeat' split
  all_goals simp [HandlerResult.isFailure]

/-- C1.  Every failing Create or Update request (validation error, missing
fields, failed reference resolution, constraint violation, internal failure)
leaves the persisted store exactly as it was; in particular a failing Update
on an existing game — e.g. one whose `category_id` fails to resolve after
`publisher_id` was already assigned on the in-memory entity — leaves the
stored row unchanged. -/
theorem failed_requests_leave_store_unchanged (s : Store) (id : Int) (req : HttpRequest) :
    ((create_game s req).1.isFailure = true → (create_game s req).2 = s) ∧
    ((update_game s id req).1.isFailure = true → (update_game s id req).2 = s) ∧
    (∀ g, s.getGame id = some g → (update_game s id req).1.isFailure = true →
      ((update_game s id req).2).getGame id = some g) := by
  have hc := create_game_failure_frame s req
  have hu := update_game_failure_frame s id req
  refine ⟨?_, ?_, ?_⟩
  · intro h
    rcases hc with h' | h'
    · rw [h] at h'; cases h'
    · exact h'
  · intro h
    rcases hu with h' | h'
    · rw [h] at h'; cases h'
    · exact h'
  · intro g hg h
    rcases hu with h' | h'
    · rw [h] at h'; cases h'
    · rw [h', hg]

/-- C1 witness: an Update whose `category_id` fails to resolve after a valid
`publisher_id` was assigned leaves the store — and the stored row — as they
were; a Create with a validation error does too. -/
theorem failed_requests_leave_store_unchanged_witness :
    (update_game gameStore 1
        ⟨true, some [("publisher_id", .jint 1), ("category_id", .jint 999)]⟩).2 =
      gameStore ∧
    ((update_game gameStore 1
        ⟨true, some [("publisher_id", .jint 1), ("category_id", .jint 999)]⟩).2).getGame 1 =
      some seedGame ∧
    (create_game gameStore
        ⟨true, some [("title", .jstr "X"),
                     ("description", .jstr "a long enough description"),
                     ("category_id", .jint 1), ("publisher_id", .jint 1)]⟩).2 =
      gameStore :=
  ⟨(failed_requests_leave_store_unchanged gameStore 1
      ⟨true, some [("publisher_id", .jint 1), ("category_id", .jint 999)]⟩).2.1
      (by decide),
   (failed_requests_leave_store_unchanged gameStore 1
      ⟨true, some [("publisher_id", .jint 1), ("category_id", .jint 999)]⟩).2.2
      seedGame (by decide) (by decide),
   (failed_requests_leave_store_unchanged gameStore 1
      ⟨true, some [("title", .jstr "X"),
                   ("description", .jstr "a long enough description"),
                   ("category_id", .jint 1), ("publisher_id", .jint 1)]⟩).1
      (by decide)⟩

/-- A successful publisher step leaves every field but `publisher_id`
unchanged, and assigns `publisher_id` exactly when the key is present. -/
theorem applyPublisherField_ok {s : Store} {data : Payload} {g g' : Game}
    (h : applyPublisherField s data g = .ok g') :
    g'.id = g.id ∧ g'.title = g.title ∧ g'.description = g.description ∧
    g'.star_rating = g.star_rating ∧ g'.category_id = g.category_id ∧
    (data.lookup "publisher_id" = none → g'.publisher_id = g.publisher_id) ∧
    (∀ w, data.lookup "publisher_id" = some w → g'.publisher_id = w) := by
  unfold applyPublisherField at h
  split at h
  · injection h with h'
    subst h'
    simp_all
  · split at h
    · simp at h
    · injection h with h'
      subst h'
      simp_all

/-- A successful category step leaves every field but `category_id`
unchanged, and assigns `category_id` exactly when the key is present. -/
theorem applyCategoryField_ok {s : Store} {data : Payload} {g g' : Game}
    (h : applyCategoryField s data g = .ok g') :
    g'.id = g.id ∧ g'.title = g.title ∧ g'.description = g.description ∧
    g'.star_rating = g.star_rating ∧ g'.publisher_id = g.publisher_id ∧
    (data.lookup "category_id" = none → g'.category_id = g.category_id) ∧
    (∀ w, data.lookup "category_id" = some w → g'.category_id = w) := by
  unfold applyCategoryField at h
  split at h
  · injection h with h'
    subst h'
    simp_all
  · split at h
    · simp at h
    · injection h with h'
      subst h'
      simp_all

/-- A successful title step leaves every field but `title` unchanged, and
assigns the payload value (validators return accepted values unchanged)
exactly when the key is present. -/
theorem applyTitleField_ok {data : Payload} {g g' : Game}
    (h : applyTitleField data g = .ok g') :
    g'.id = g.id ∧ g'.description = g.description ∧
    g'.star_rating = g.star_rating ∧ g'.category_id = g.category_id ∧
    g'.publisher_id = g.publisher_id ∧
    (data.lookup "title" = none → g'.title = g.title) ∧
    (∀ w, data.lookup "title" = some w → g'.title = w) := by
  unfold applyTitleField at h
  split at h
  · injection h with h'
    subst h'
    simp_all
  · split at h
    · simp at h
    · rename_i v hv v' hval
      injection h with h'
      subst h'
      have := Game.validate_name_ok hval
      subst this
      simp_all

/-- A successful description step leaves every field but `description`
unchanged, and assigns the payload value exactly when the key is present. -/
theorem applyDescriptionField_ok {data : Payload} {g g' : Game}
    (h : applyDescriptionField data g = .ok g') :
    g'.id = g.id ∧ g'.title = g.title ∧
    g'.star_rating = g.star_rating ∧ g'.category_id = g.category_id ∧
    g'.publisher_id = g.publisher_id ∧
    (data.lookup "description" = none → g'.description = g.description) ∧
    (∀ w, data.lookup "description" = some w → g'.description = w) := by
  unfold applyDescriptionField at h
  split at h
  · injection h with h'
    subst h'
    simp_all
  · split at h
    · simp at h
    · rename_i v hv v' hval
      injection h with h'
      subst h'
      have := Game.validate_description_ok hval
      subst this
      simp_all

/-- The star-rating step leaves every other field unchanged and assigns
`star_rating` exactly when the key is present. -/
theorem applyStarRatingField_fields (data : Payload) (g : Game) :
    (applyStarRatingField data g).id = g.id ∧
    (applyStarRatingField data g).title = g.title ∧
    (applyStarRatingField data g).description = g.description ∧
    (applyStarRatingField data g).category_id = g.category_id ∧
    (applyStarRatingField data g).publisher_id = g.publisher_id ∧
    (data.lookup "star_rating" = none →
      (applyStarRatingField data g).star_rating = g.star_rating) ∧
    (∀ w, data.lookup "star_rating" = some w →
      (applyStarRatingField data g).star_rating = w) := by
  unfold applyStarRatingField
  split <;> simp_all

/-- A successful pass of the field-update phase applies each supplied field
and leaves each absent field (and the id) unchanged. -/
theorem updateFields_fields {s : Store} {data : Payload} {g g' : Game}
    (h : updateFields s data g = .ok g') :
    g'.id = g.id ∧
    (data.lookup "title" = none → g'.title = g.title) ∧
    (∀ w, data.lookup "title" = some w → g'.title = w) ∧
    (data.lookup "description" = none → g'.description = g.description) ∧
    (∀ w, data.lookup "description" = some w → g'.description = w) ∧
    (data.lookup "star_rating" = none → g'.star_rating = g.star_rating) ∧
    (∀ w, data.lookup "star_rating" = some w → g'.star_rating = w) ∧
    (data.lookup "publisher_id" = none → g'.publisher_id = g.publisher_id) ∧
    (∀ w, data.lookup "publisher_id" = some w → g'.publisher_id = w) ∧
    (data.lookup "category_id" = none → g'.category_id = g.category_id) ∧
    (∀ w, data.lookup "category_id" = some w → g'.category_id = w) := by
  unfold updateFields at h
  split at h
  · simp at h
  rename_i g1 h1
  split at h
  · simp at h
  rename_i g2 h2
  split at h
  · simp at h
  rename_i g3 h3
  split at h
  · simp at h
  rename_i g4 h4
  injection h with h'
  subst h'
  obtain ⟨p_id, p_t, p_d, p_s, p_c, p_pn, p_ps⟩ := applyPublisherField_ok h1
  obtain ⟨c_id, c_t, c_d, c_s, c_p, c_cn, c_cs⟩ := applyCategoryField_ok h2
  obtain ⟨t_id, t_d, t_s, t_c, t_p, t_tn, t_ts⟩ := applyTitleField_ok h3
  obtain ⟨d_id, d_t, d_s, d_c, d_p, d_dn, d_ds⟩ := applyDescriptionField_ok h4
  obtain ⟨r_id, r_t, r_d, r_c, r_p, r_sn, r_ss⟩ := applyStarRatingField_fields data g4
  refine ⟨?_, ?_, ?_, ?_, ?_, ?_, ?_, ?_, ?_, ?_, ?_⟩
  · rw [r_id, d_id, t_id, c_id, p_id]
  · intro hn; rw [r_t, d_t, t_tn hn, c_t, p_t]
  · intro w hw; rw [r_t, d_t, t_ts w hw]
  · intro hn; rw [r_d, d_dn hn, t_d, c_d, p_d]
  · intro w hw; rw [r_d, d_ds w hw]
  · intro hn; rw [r_sn hn, d_s, t_s, c_s, p_s]
  · intro w hw; rw [r_ss w hw]
  · intro hn; rw [r_p, d_p, t_p, c_p, p_pn hn]
  · intro w hw; rw [r_p, d_p, t_p, c_p, p_ps w hw]
  · intro hn; rw [r_c, d_c, t_c, c_cn hn, p_c]
  · intro w hw; rw [r_c, d_c, t_c, c_cs w hw]

/-- A non-failing Update went through the whole pipeline: the field-update
phase succeeded and commit wrote exactly the updated row back. -/
theorem update_game_success_shape {s : Store} {id : Int} {req : HttpRequest}
    {data : Payload} {g : Game}
    (hbody : req.get_json = some data) (hg : s.getGame id = some g)
    (hok : (update_game s id req).1.isFailure = false) :
    ∃ g', updateFields s data g = .ok g' ∧
      (update_game s id req).2 =
        { s with games := s.games.map (fun x => if x.id = id then g' else x) } := by
  simp only [update_game, hg, hbody] at hok ⊢
  by_cases hj : req.is_json = true
  swap
  · simp [hj, HandlerResult.isFailure] at hok
  simp only [hj, not_true, if_neg, ite_false, not_false_iff] at hok ⊢
  by_cases he : data.isEmpty = true
  · simp [he, HandlerResult.isFailure] at hok
  simp only [he, ite_false, Bool.false_eq_true] at hok ⊢
  cases hf : updateFields s data g with
  | error e =>
    obtain ⟨code, m⟩ := e
    simp [hf, HandlerResult.isFailure] at hok
  | ok g' =>
    simp only [hf] at hok ⊢
    by_cases hco : commitOk g' = true
    swap
    · simp [hco, HandlerResult.isFailure] at hok
    simp only [hco, ite_true, if_pos] at hok ⊢
    cases hfind : (s.games.map (fun x => if x.id = id then g' else x)).find?
        (fun x => x.id = id) with
    | none => simp [hfind, HandlerResult.isFailure] at hok
    | some u => exact ⟨g', rfl, by simp [hfind]⟩

/-- Replacing the found row by a row with the same id makes `find?` return
the replacement. -/
theorem find?_map_update (l : List Game) (id : Int) (g g' : Game)
    (hfind : l.find? (fun x => x.id = id) = some g) (hid : g'.id = id) :
    (l.map (fun x => if x.id = id then g' else x)).find? (fun x => x.id = id) =
      some g' := by
  induction l with
  | nil => simp at hfind
  | cons a t ih =>
    by_cases h : a.id = id
    · simp [h, hid]
    · rw [List.find?_cons_of_neg] at hfind
      · rw [List.map_cons, if_neg h, List.find?_cons_of_neg]
        · exact ih hfind
        · simp [h]
      · simp [h]

/-- C4.  A successful partial Update applies `title`, `description` and
`star_rating` only when their key is present in the payload, and every field
whose key is absent (including the id and the foreign keys) is byte-identical
to its pre-update value in the stored row. -/
theorem update_game_partial_fields (s : Store) (id : Int) (req : HttpRequest)
    (data : Payload) (g : Game)
    (hbody : req.get_json = some data) (hg : s.getGame id = some g)
    (hok : (update_game s id req).1.isFailure = false) :
    ∃ g', ((update_game s id req).2).getGame id = some g' ∧
      g'.id = g.id ∧
      (data.lookup "title" = none → g'.title = g.title) ∧
      (∀ w, data.lookup "title" = some w → g'.title = w) ∧
      (data.lookup "description" = none → g'.description = g.description) ∧
      (∀ w, data.lookup "description" = some w → g'.description = w) ∧
      (data.lookup "star_rating" = none → g'.star_rating = g.star_rating) ∧
      (∀ w, data.lookup "star_rating" = some w → g'.star_rating = w) ∧
      (data.lookup "publisher_id" = none → g'.publisher_id = g.publisher_id) ∧
      (data.lookup "category_id" = none → g'.category_id = g.category_id) := by
  obtain ⟨g', hgf, hs2⟩ := update_game_success_shape hbody hg hok
  obtain ⟨f_id, f_tn, f_ts, f_dn, f_ds, f_sn, f_ss, f_pn, _, f_cn, _⟩ :=
    updateFields_fields hgf
  have hgid : g.id = id := by
    have := List.find?_some hg
    simpa using this
  refine ⟨g', ?_, f_id, f_tn, f_ts, f_dn, f_ds, f_sn, f_ss, f_pn, f_cn⟩
  rw [hs2]
  simp only [Store.getGame]
  exact find?_map_update s.games id g g' hg (by rw [f_id, hgid])

/-- C4 witness: updating only the title leaves description and star rating
byte-identical in the stored row. -/
theorem update_game_partial_fields_witness :
    ∃ g', ((update_game gameStore 1
        ⟨true, some [("title", .jstr "New Title")]⟩).2).getGame 1 = some g' ∧
      g'.title = .jstr "New Title" ∧
      g'.description = seedGame.description ∧
      g'.star_rating = seedGame.star_rating := by
  obtain ⟨g', h1, _, _, hts, hdn, _, hsn, _, _, _⟩ :=
    update_game_partial_fields gameStore 1
      ⟨true, some [("title", .jstr "New Title")]⟩
      [("title", .jstr "New Title")] seedGame rfl (by decide) (by decide)
  exact ⟨g', h1, hts (.jstr "New Title") (by decide),
    hdn (by decide), hsn (by decide)⟩

/-- C6.  A non-null description whose stripped length is below 10 is rejected
by the field validator with a message containing (indeed starting with)
"Description must be at least", so a PUT with such a description on an
existing game returns 400 with that message and leaves the store unchanged;
a null description bypasses the field validator and is returned as-is. -/
theorem game_description_rules (s : String) (st : Store) (id : Int) (g : Game)
    (hshort : (strip s).length < 10) (hg : st.getGame id = some g) :
    Game.validate_description (.jstr s) =
      .error "Description must be at least 10 characters" ∧
    Game.validate_description .jnull = .ok .jnull ∧
    update_game st id ⟨true, some [("description", .jstr s)]⟩ =
      (.failure 400 "Description must be at least 10 characters", st) ∧
    (∃ rest, "Description must be at least 10 characters" =
      "Description must be at least" ++ rest) := by
  have hstr : "Description must be at least " ++ toString 10 ++ " characters" =
      "Description must be at least 10 characters" := by decide
  have hval : Game.validate_description (.jstr s) =
      .error "Description must be at least 10 characters" := by
    simp [Game.validate_description, validate_string_length, hshort, hstr]
  refine ⟨hval, by simp [Game.validate_description], ?_,
    ⟨" 10 characters", by decide⟩⟩
  have hupd : updateFields st [("description", .jstr s)] g =
      .error (400, "Description must be at least 10 characters") := by
    simp [updateFields, applyPublisherField, applyCategoryField, applyTitleField,
          applyDescriptionField, Payload.lookup, List.find?, hval]
  simp [update_game, hg, hupd]

/-- C6 witness: PUT with description "Short" on the seeded game returns 400
with the expected message, and null bypasses the validator. -/
theorem game_description_rules_witness :
    update_game gameStore 1 ⟨true, some [("description", .jstr "Short")]⟩ =
      (.failure 400 "Description must be at least 10 characters", gameStore) ∧
    Game.validate_description .jnull = .ok .jnull :=
  ⟨(game_description_rules "Short" gameStore 1 seedGame (by decide) (by decide)).2.2.1,
   (game_description_rules "Short" gameStore 1 seedGame (by decide) (by decide)).2.1⟩

/-- The ceiling-division formula dominates the total: `t ≤ ((t+k-1)/k) * k`. -/
theorem ceil_formula_mul_ge (t k : Nat) (hk : 0 < k) :
    t ≤ ((t + k - 1) / k) * k := by
  have h := (Nat.div_le_iff_le_mul_add_pred hk).mp
    (Nat.le_refl ((t + k - 1) / k))
  rw [Nat.mul_comm] at h
  set m := ((t + k - 1) / k) * k with hm
  omega

/-- The integer formula `(t + k - 1) / k` is the ceiling of the exact
rational division `t / k`. -/
theorem ceil_formula_eq_ceil (t k : Nat) (hk : 0 < k) :
    (t + k - 1) / k = ⌈(t : ℚ) / (k : ℚ)⌉₊ := by
  rcases Nat.eq_zero_or_pos t with rfl | ht
  · rw [Nat.zero_add, Nat.div_eq_of_lt (Nat.sub_lt hk Nat.one_pos)]
    simp
  · have hne : (t + k - 1) / k ≠ 0 := by
      have : 1 ≤ (t + k - 1) / k := by
        rw [Nat.le_div_iff_mul_le hk]
        omega
      omega
    have hkq : (0 : ℚ) < (k : ℚ) := by exact_mod_cast hk
    symm
    rw [Nat.ceil_eq_iff hne]
    constructor
    · rw [lt_div_iff₀ hkq]
      have hnat : ((t + k - 1) / k - 1) * k < t := by
        have h1 : ((t + k - 1) / k) * k ≤ t + k - 1 :=
          (Nat.le_div_iff_mul_le hk).mp (Nat.le_refl _)
        have h2 : ((t + k - 1) / k - 1) * k = ((t + k - 1) / k) * k - k := by
          rw [Nat.sub_mul, Nat.one_mul]
        set m := ((t + k - 1) / k) * k with hm
        omega
      exact_mod_cast hnat
    · rw [div_le_iff₀ hkq]
      exact_mod_cast ceil_formula_mul_ge t k hk

/-- C7.  For every List request, `total_pages` is computed by the exact
integer formula `(total + k - 1) / k` on the clamped `per_page` `k`, this
equals the true rational ceiling `⌈total / k⌉`, `total` is the real row
count, and a clamped `page` beyond `total_pages` yields an empty `data`
array (with the same true `total`/`total_pages`) rather than an error. -/
theorem get_games_pagination_spec (s : Store) (page_arg per_page_arg : Option Int) :
    (get_games s page_arg per_page_arg).total_pages =
      ((get_games s page_arg per_page_arg).total +
        (get_games s page_arg per_page_arg).per_page.toNat - 1) /
        (get_games s page_arg per_page_arg).per_page.toNat ∧
    (get_games s page_arg per_page_arg).total_pages =
      ⌈((get_games s page_arg per_page_arg).total : ℚ) /
        ((get_games s page_arg per_page_arg).per_page.toNat : ℚ)⌉₊ ∧
    (get_games s page_arg per_page_arg).total = s.games.length ∧
    (((get_games s page_arg per_page_arg).total_pages : ℤ) <
        (get_games s page_arg per_page_arg).page →
      (get_games s page_arg per_page_arg).data = []) := by
  simp only [get_games]
  set P : ℤ := if page_arg.getD 1 < 1 then 1 else page_arg.getD 1 with hPdef
  set K : ℤ := if per_page_arg.getD 20 < 1 ∨ per_page_arg.getD 20 > 100 then 20
    else per_page_arg.getD 20 with hKdef
  have hP : 1 ≤ P := by rw [hPdef]; split <;> omega
  have hK : 1 ≤ K := by rw [hKdef]; split <;> omega
  have hk : 0 < K.toNat := by omega
  set tp : ℕ := (s.games.length + K.toNat - 1) / K.toNat with htp
  refine ⟨?_, ?_, ?_, ?_⟩
  · trivial
  · rw [htp]
    exact ceil_formula_eq_ceil s.games.length K.toNat hk
  · trivial
  · intro hlt
    have hdrop : s.games.drop ((P - 1) * K).toNat = [] := by
      apply List.drop_eq_nil_of_le
      have h0n : s.games.length ≤ tp * K.toNat := by
        rw [htp]
        exact ceil_formula_mul_ge s.games.length K.toNat hk
      have h0 : (s.games.length : ℤ) ≤ (tp : ℤ) * (K.toNat : ℤ) := by
        exact_mod_cast h0n
      have h1 : (tp : ℤ) * (K.toNat : ℤ) ≤ (P - 1) * (K.toNat : ℤ) := by
        apply mul_le_mul_of_nonneg_right _ (by omega : (0 : ℤ) ≤ (K.toNat : ℤ))
        omega
      have hKt : ((K.toNat : ℤ)) = K := Int.toNat_of_nonneg (by omega)
      rw [hKt] at h0 h1
      have h2 : (s.games.length : ℤ) ≤ (P - 1) * K := le_trans h0 h1
      set m := (P - 1) * K with hm
      omega
    rw [hdrop]
    simp

/-- C7 witness: one stored game, page 3, per_page 2: `total_pages = 1`,
page 3 is beyond it, `data` is empty while `total` stays truthful. -/
theorem get_games_pagination_spec_witness :
    (get_games gameStore (some 3) (some 2)).data = [] ∧
    (get_games gameStore (some 3) (some 2)).total = 1 ∧
    (get_games gameStore (some 3) (some 2)).total_pages = 1 :=
  ⟨(get_games_pagination_spec gameStore (some 3) (some 2)).2.2.2 (by decide),
   by decide, by decide⟩

end Catalog
